import Mathlib

/-
Verification of the record-store core and rental lifecycle of the
vehicle-renting desktop application (src/main.py).

The embedding is shallow: each Python class becomes a Lean structure, each
method a Lean function.  CSV rows are association lists; the three backing
files are modelled as the collections they hold (every write is a full
rewrite of one collection, every read a full load, so a collection-valued
state is faithful).  A file that may be absent is an Option.  Python
exceptions that a method catches are Option/sum results; machine floats
(daily_rate) are modelled as rationals, which is exact for the arithmetic
the program performs (sums and products of parsed decimals).
-/

set_option autoImplicit false

namespace VRS

/-- Values a vehicle CSV dictionary can hold: the Python dictionaries built
by Vehicle.to_dict mix strings, ints, floats and booleans, and the parsing
in Vehicle.from_dict is sensitive to which of these it receives. -/
inductive Value where
  | str (s : String)
  | int (n : ℤ)
  | float (q : ℚ)
  | bool (b : Bool)
deriving DecidableEq, Repr

/-- Python equality test of a dictionary value against the literal string
True, as in the expression data["is_available"] == 'True' of
Vehicle.from_dict: in Python a non-string (in particular the boolean True)
is never equal to a string. -/
def Value.eqTrueStr : Value → Bool
  | .str s => s = "True"
  | _ => false

/-- Characters of a string with leading and trailing whitespace removed:
the Python str.strip() on the text of a form entry.  Implemented over the
character list so that concrete inputs evaluate by kernel reduction. -/
def pyStrip (s : String) : String :=
  ⟨((s.data.dropWhile Char.isWhitespace).reverse.dropWhile
      Char.isWhitespace).reverse⟩

/-- Upper-cased copy of a string, the Python str.upper() (over the ASCII
letters this program compares). -/
def pyUpper (s : String) : String :=
  ⟨s.data.map Char.toUpper⟩

/-- Split of a character list at every occurrence of a separator, the
Python str.split behaviour with a one-character separator: n separators
yield n + 1 (possibly empty) pieces. -/
def splitOnChar (sep : Char) : List Char → List (List Char)
  | [] => [[]]
  | c :: cs =>
    if c = sep then [] :: splitOnChar sep cs
    else
      match splitOnChar sep cs with
      | [] => [[c]]
      | h :: t => (c :: h) :: t

/-- Nat value of a list of decimal digits, read left to right. -/
def natFromDigits (cs : List Char) : ℕ :=
  cs.foldl (fun n c => 10 * n + (c.toNat - 48)) 0

/-- Nat value of a non-empty all-digit character list, none otherwise. -/
def digitsToNat (cs : List Char) : Option ℕ :=
  if cs.length > 0 && cs.all Char.isDigit then some (natFromDigits cs)
  else none

/-- Python int(x) applied to a dictionary value: ints pass through,
booleans become 0 or 1, numeric strings (optional sign, digits) are
parsed, floats are truncated toward zero; anything else raises (none). -/
def Value.pyInt : Value → Option ℤ
  | .int n => some n
  | .bool b => some (if b then 1 else 0)
  | .str s =>
    (match (pyStrip s).data with
      | '-' :: rest => (digitsToNat rest).map (fun n => -(n : ℤ))
      | '+' :: rest => (digitsToNat rest).map (fun n => (n : ℤ))
      | t => (digitsToNat t).map (fun n => (n : ℤ)))
  | .float q => some (if 0 ≤ q then ⌊q⌋ else -⌊-q⌋)

/-- Python float(x) applied to a dictionary value: floats and ints pass
through, booleans become 0.0 or 1.0, and a decimal string (optional sign,
digits with an optional fractional part) is parsed; other text raises. -/
def Value.pyFloat : Value → Option ℚ
  | .float q => some q
  | .int n => some (n : ℚ)
  | .bool b => some (if b then 1 else 0)
  | .str s =>
    let (sign, u) : ℚ × List Char :=
      match (pyStrip s).data with
      | '-' :: rest => (-1, rest)
      | '+' :: rest => (1, rest)
      | t => (1, t)
    match splitOnChar '.' u with
    | [a] => (digitsToNat a).map (fun n => sign * (n : ℚ))
    | [a, b] =>
      if (a.all Char.isDigit && b.all Char.isDigit) && a.length + b.length > 0 then
        some (sign * (natFromDigits (a ++ b) : ℚ) / (10 : ℚ) ^ b.length)
      else none
    | _ => none

/-- Staff account: username and password stored verbatim (class User). -/
structure User where
  username : String
  password : String
deriving DecidableEq, Repr

/-- User.to_dict of src/main.py: the two fields as a CSV dictionary. -/
def User.to_dict (u : User) : List (String × String) :=
  [("username", u.username), ("password", u.password)]

/-- User.from_dict of src/main.py: reads the two keys; a missing key is a
KeyError, modelled as none. -/
def User.from_dict (data : List (String × String)) : Option User :=
  match data.lookup "username", data.lookup "password" with
  | some u, some p => some ⟨u, p⟩
  | _, _ => none

/-- Vehicle record (class Vehicle): identity, description, year, daily
rate, image path and the availability flag. -/
structure Vehicle where
  vehicle_id : String
  type : String
  make : String
  model : String
  year : ℤ
  daily_rate : ℚ
  image_path : String
  is_available : Bool
deriving DecidableEq, Repr

/-- Vehicle.to_dict of src/main.py: every field under its column name.
The is_available entry is the raw boolean (the in-code comment claims a
string is stored, but the value placed in the dictionary is the boolean
attribute itself). -/
def Vehicle.to_dict (v : Vehicle) : List (String × Value) :=
  [("vehicle_id", .str v.vehicle_id),
   ("type", .str v.type),
   ("make", .str v.make),
   ("model", .str v.model),
   ("year", .int v.year),
   ("daily_rate", .float v.daily_rate),
   ("image_path", .str v.image_path),
   ("is_available", .bool v.is_available)]

/-- Vehicle.from_dict of src/main.py: reads the eight keys, converts year
with int(...) and daily_rate with float(...), and recovers the availability
flag by comparing the is_available value with the literal string True.
A missing key or a failing numeric conversion raises, modelled as none. -/
def Vehicle.from_dict (data : List (String × Value)) : Option Vehicle :=
  match data.lookup "vehicle_id", data.lookup "type", data.lookup "make",
        data.lookup "model", data.lookup "year", data.lookup "daily_rate",
        data.lookup "image_path", data.lookup "is_available" with
  | some (.str vid), some (.str ty), some (.str vmk), some (.str vmd),
    some yv, some rv, some (.str ip), some av =>
    match yv.pyInt, rv.pyFloat with
    | some y, some r => some ⟨vid, ty, vmk, vmd, y, r, ip, av.eqTrueStr⟩
    | _, _ => none
  | _, _, _, _, _, _, _, _ => none

/-- Rental agreement record (class Rental): identity, vehicle reference,
customer data, the three dates and the status string. -/
structure Rental where
  rental_id : String
  vehicle_id : String
  customer_id : String
  customer_name : String
  customer_address : String
  customer_tel : String
  rent_date : String
  proposed_return_date : String
  actual_return_date : String
  status : String
deriving DecidableEq, Repr

/-- Rental.to_dict of src/main.py: every field under its column name. -/
def Rental.to_dict (r : Rental) : List (String × String) :=
  [("rental_id", r.rental_id),
   ("vehicle_id", r.vehicle_id),
   ("customer_id", r.customer_id),
   ("customer_name", r.customer_name),
   ("customer_address", r.customer_address),
   ("customer_tel", r.customer_tel),
   ("rent_date", r.rent_date),
   ("proposed_return_date", r.proposed_return_date),
   ("actual_return_date", r.actual_return_date),
   ("status", r.status)]

/-- Rental.from_dict of src/main.py: the first eight keys are read with
data[...] (a missing one raises, modelled as none); actual_return_date and
status are read with data.get and default to N/A and Rented. -/
def Rental.from_dict (data : List (String × String)) : Option Rental :=
  match data.lookup "rental_id", data.lookup "vehicle_id",
        data.lookup "customer_id", data.lookup "customer_name",
        data.lookup "customer_address", data.lookup "customer_tel",
        data.lookup "rent_date", data.lookup "proposed_return_date" with
  | some rid, some vid, some cid, some cname, some caddr, some ctel,
    some rd, some prd =>
    some ⟨rid, vid, cid, cname, caddr, ctel, rd, prd,
          (data.lookup "actual_return_date").getD "N/A",
          (data.lookup "status").getD "Rented"⟩
  | _, _, _, _, _, _, _, _ => none

namespace DatabaseManager

/-- DatabaseManager.get_users: none stands for an absent users file, caught
as FileNotFoundError and answered with the empty list; otherwise every row
is mapped through User.from_dict (a row that raises fails the load). -/
def get_users (file : Option (List (List (String × String)))) :
    Option (List User) :=
  match file with
  | none => some []
  | some rows => rows.mapM User.from_dict

/-- DatabaseManager.get_vehicles: as get_users, with Vehicle.from_dict. -/
def get_vehicles (file : Option (List (List (String × Value)))) :
    Option (List Vehicle) :=
  match file with
  | none => some []
  | some rows => rows.mapM Vehicle.from_dict

/-- DatabaseManager.get_rentals: as get_users, with Rental.from_dict. -/
def get_rentals (file : Option (List (List (String × String)))) :
    Option (List Rental) :=
  match file with
  | none => some []
  | some rows => rows.mapM Rental.from_dict

/-- DatabaseManager.add_user: loads the stored accounts, answers false and
rewrites nothing when some stored account already carries the new username,
and otherwise appends the account and rewrites the file with every row. -/
def add_user (users : List User) (user : User) : List User × Bool :=
  if users.any (fun u => u.username = user.username) then (users, false)
  else (users ++ [user], true)

/-- DatabaseManager.update_vehicle: linear scan of the loaded vehicles,
the first row whose vehicle_id matches is replaced (break), and the whole
collection is rewritten; with no match the collection is rewritten as it
was loaded. -/
def update_vehicle (updated_vehicle : Vehicle) : List Vehicle → List Vehicle
  | [] => []
  | v :: vs =>
    if v.vehicle_id = updated_vehicle.vehicle_id then updated_vehicle :: vs
    else v :: update_vehicle updated_vehicle vs

/-- DatabaseManager.update_rental: linear scan of the loaded rentals, the
first row whose rental_id matches is replaced (break), and the whole
collection is rewritten; with no match the collection is rewritten as it
was loaded. -/
def update_rental (updated_rental : Rental) : List Rental → List Rental
  | [] => []
  | r :: rs =>
    if r.rental_id = updated_rental.rental_id then updated_rental :: rs
    else r :: update_rental updated_rental rs

end DatabaseManager

/-- Persistent state the lifecycle operations read and write: the vehicles
collection and the rentals collection (the two CSV files). -/
structure AppState where
  vehicles : List Vehicle
  rentals : List Rental
deriving DecidableEq, Repr

/-- Calendar date as the year, month and day fields of a Python datetime. -/
structure Date where
  year : ℕ
  month : ℕ
  day : ℕ
deriving DecidableEq, Repr

/-- Gregorian leap-year rule, as datetime uses it. -/
def isLeapYear (y : ℕ) : Bool :=
  (y % 4 = 0 && y % 100 ≠ 0) || y % 400 = 0

/-- Length of a month in the given year, as datetime validates days. -/
def daysInMonth (y m : ℕ) : ℕ :=
  if m = 2 then (if isLeapYear y then 29 else 28)
  else if m = 4 || m = 6 || m = 9 || m = 11 then 30
  else 31

/-- Behaviour of datetime.strptime(s, "%Y-%m-%d"): four year digits, one or
two month digits, one or two day digits, nothing else in the string, and
the resulting calendar date must exist (year at least 1, month 1..12, day
within the month).  Any other input raises ValueError, modelled as none. -/
def strptime_Ymd (s : String) : Option Date :=
  match splitOnChar '-' s.data with
  | [ys, ms, ds] =>
    if ys.length = 4 && ys.all Char.isDigit
        && 1 ≤ ms.length && ms.length ≤ 2 && ms.all Char.isDigit
        && 1 ≤ ds.length && ds.length ≤ 2 && ds.all Char.isDigit then
      let y := natFromDigits ys
      let m := natFromDigits ms
      let d := natFromDigits ds
      if 1 ≤ y && 1 ≤ m && m ≤ 12 && 1 ≤ d && d ≤ daysInMonth y m then
        some ⟨y, m, d⟩
      else none
    else none
  | _ => none

/-- Days in the months of year y strictly before month m. -/
def daysBeforeMonth (y m : ℕ) : ℕ :=
  ((List.range (m - 1)).map (fun i => daysInMonth y (i + 1))).sum

/-- Proleptic-Gregorian ordinal of a date (date.toordinal in Python):
January 1 of year 1 is day 1.  Differences of ordinals are exactly the
day counts that datetime subtraction yields. -/
def Date.toOrdinal (dt : Date) : ℕ :=
  365 * (dt.year - 1) + (dt.year - 1) / 4 - (dt.year - 1) / 100
    + (dt.year - 1) / 400 + daysBeforeMonth dt.year dt.month + dt.day

/-- Live fee preview update_total_fee of show_rent_popup: both entry texts
are stripped and parsed as dates; on success the day count is the ordinal
difference raised to at least 1 and the fee is days times the daily rate;
any parse failure is caught and leads to the zero display (none). -/
def update_total_fee (daily_rate : ℚ) (rent_date return_date : String) :
    Option (ℤ × ℚ) :=
  match strptime_Ymd (pyStrip rent_date), strptime_Ymd (pyStrip return_date) with
  | some rent_dt, some return_dt =>
    let days : ℤ := (return_dt.toOrdinal : ℤ) - (rent_dt.toOrdinal : ℤ)
    let days := if days < 1 then 1 else days
    some (days, days * daily_rate)
  | _, _ => none

/-- Fee amount the preview label shows: the computed total on success and
Rs0.00 when a date fails to parse. -/
def displayed_total_fee (daily_rate : ℚ) (rent_date return_date : String) : ℚ :=
  match update_total_fee daily_rate rent_date return_date with
  | some p => p.2
  | none => 0

/-- Outcome of the rent flow, one constructor per exit of show_rent_popup
and its confirm_rental handler. -/
inductive RentOutcome where
  | notAvailable
  | inputError
  | dateFormatError
  | confirmed
deriving DecidableEq, Repr

/-- Handler confirm_rental of src/main.py: strips the six form fields,
rejects when any is empty, rejects when either date fails to parse as
YYYY-MM-DD, and otherwise appends one new rental agreement (status Rented,
actual_return_date N/A, referencing the vehicle) via add_rental and writes
the vehicle back with is_available set to false via update_vehicle. -/
def confirm_rental (vehicle : Vehicle)
    (rental_id customer_id customer_name customer_address customer_tel
      rent_date proposed_return_date : String) (s : AppState) :
    AppState × RentOutcome :=
  let c_id := pyStrip customer_id
  let c_name := pyStrip customer_name
  let c_address := pyStrip customer_address
  let c_tel := pyStrip customer_tel
  let r_date := pyStrip rent_date
  let p_return_date := pyStrip proposed_return_date
  if c_id = "" || c_name = "" || c_address = "" || c_tel = ""
      || r_date = "" || p_return_date = "" then
    (s, .inputError)
  else
    match strptime_Ymd r_date, strptime_Ymd p_return_date with
    | some _, some _ =>
      let new_rental : Rental :=
        ⟨rental_id, vehicle.vehicle_id, c_id, c_name, c_address, c_tel,
          r_date, p_return_date, "N/A", "Rented"⟩
      let s1 : AppState := { s with rentals := s.rentals ++ [new_rental] }
      let s2 : AppState := { s1 with
        vehicles := DatabaseManager.update_vehicle
          ({ vehicle with is_available := false }) s1.vehicles }
      (s2, .confirmed)
    | _, _ => (s, .dateFormatError)

/-- Rent flow from the catalog tile: show_rent_popup refuses to open for a
vehicle that is not available (no state is touched), and otherwise the
operation completes through the confirm_rental handler. -/
def show_rent_popup (vehicle : Vehicle)
    (rental_id customer_id customer_name customer_address customer_tel
      rent_date proposed_return_date : String) (s : AppState) :
    AppState × RentOutcome :=
  if vehicle.is_available = false then (s, .notAvailable)
  else
    confirm_rental vehicle rental_id customer_id customer_name
      customer_address customer_tel rent_date proposed_return_date s

/-- Outcome of the direct vehicle-status edit update_vehicle_status. -/
inductive StatusOutcome where
  | noChange
  | returnDeclined
  | statusUpdated
deriving DecidableEq, Repr

/-- Handler update_vehicle_status of show_vehicle_details_for_update:
selecting the current status is reported as no change; switching an
unavailable vehicle to Available while a rental with status Rented still
references it opens a yes/no confirmation, and answering no aborts with
nothing written; in every other case the vehicle is written back with the
new flag via update_vehicle. -/
def update_vehicle_status (vehicle : Vehicle) (new_is_available : Bool)
    (confirm_return : Bool) (s : AppState) : AppState × StatusOutcome :=
  if new_is_available = vehicle.is_available then (s, .noChange)
  else if new_is_available
      && !(s.rentals.filter (fun r =>
            r.vehicle_id = vehicle.vehicle_id && r.status = "Rented")).isEmpty
      && !confirm_return then
    (s, .returnDeclined)
  else
    let v2 : Vehicle := { vehicle with is_available := new_is_available }
    ({ s with vehicles := DatabaseManager.update_vehicle v2 s.vehicles },
      .statusUpdated)

/-- Outcome of the rental-history edit save. -/
inductive SaveOutcome where
  | dateFormatError
  | saved
deriving DecidableEq, Repr

/-- Handler save_rental_updates of show_rental_details_for_update: strips
the edited fields, validates rent and proposed return dates and (unless it
is N/A in any letter case or empty) the actual return date, writes the
edited rental via update_rental, and, comparing the status before and
after the edit, flips the vehicle of a Rented-to-Returned edit to
available and the vehicle of a Returned-to-Rented edit to unavailable via
update_vehicle — with no confirmation step in either direction.  A date
that fails to parse aborts with nothing written. -/
def save_rental_updates (rental : Rental) (vehicle : Vehicle)
    (customer_id customer_name customer_address customer_tel
      rent_date_in proposed_return_in actual_return_in new_status : String)
    (s : AppState) : AppState × SaveOutcome :=
  let rent_d := pyStrip rent_date_in
  let prop_ret_d := pyStrip proposed_return_in
  let actual_ret_d := pyStrip actual_return_in
  if (strptime_Ymd rent_d).isNone then (s, .dateFormatError)
  else if (strptime_Ymd prop_ret_d).isNone then (s, .dateFormatError)
  else if pyUpper actual_ret_d ≠ "N/A" && actual_ret_d ≠ ""
      && (strptime_Ymd actual_ret_d).isNone then (s, .dateFormatError)
  else
    let original_status := rental.status
    let updated : Rental := { rental with
      customer_id := pyStrip customer_id,
      customer_name := pyStrip customer_name,
      customer_address := pyStrip customer_address,
      customer_tel := pyStrip customer_tel,
      rent_date := rent_d,
      proposed_return_date := prop_ret_d,
      actual_return_date := actual_ret_d,
      status := new_status }
    let s1 : AppState := { s with
      rentals := DatabaseManager.update_rental updated s.rentals }
    if original_status = "Rented" && new_status = "Returned" then
      let v2 : Vehicle := { vehicle with is_available := true }
      ({ s1 with vehicles := DatabaseManager.update_vehicle v2 s1.vehicles },
        .saved)
    else if original_status = "Returned" && new_status = "Rented" then
      let v2 : Vehicle := { vehicle with is_available := false }
      ({ s1 with vehicles := DatabaseManager.update_vehicle v2 s1.vehicles },
        .saved)
    else (s1, .saved)

/-- Sample vehicle, listed as available. -/
def vAvail : Vehicle :=
  ⟨"V1", "Car", "Toyota", "Corolla", 2020, 50, "images/toyota_corolla.jpg", true⟩

/-- Sample vehicle, listed as rented out. -/
def vRented : Vehicle :=
  ⟨"V2", "Van", "Honda", "Odyssey", 2019, 80, "images/honda_odyssey.jpg", false⟩

/-- Sample open rental agreement referencing vRented. -/
def rOpen : Rental :=
  ⟨"R1", "V2", "C9", "Bob", "2 High St", "0771234567",
    "2025-01-01", "2025-01-04", "N/A", "Rented"⟩

/-- Sample returned rental agreement referencing vAvail. -/
def rClosed : Rental :=
  ⟨"R2", "V1", "C8", "Amal", "5 Lake Rd", "0719876543",
    "2024-12-01", "2024-12-03", "2024-12-03", "Returned"⟩

/-- Sample CSV row for a rental with the two optional columns absent. -/
def rentalRowNoOptional : List (String × String) :=
  [("rental_id", "R100"), ("vehicle_id", "V1"), ("customer_id", "C1"),
   ("customer_name", "Alice"), ("customer_address", "1 Main St"),
   ("customer_tel", "0112223334"), ("rent_date", "2025-01-01"),
   ("proposed_return_date", "2025-01-04")]

/-- Replacing a key that no vehicle of the collection carries rewrites the
collection unchanged. -/
theorem update_vehicle_no_match (u : Vehicle) (l : List Vehicle)
    (h : ∀ v ∈ l, v.vehicle_id ≠ u.vehicle_id) :
    DatabaseManager.update_vehicle u l = l := by
  induction l with
  | nil => rfl
  | cons v vs ih =>
    have h1 : v.vehicle_id ≠ u.vehicle_id := h v (List.mem_cons_self v vs)
    have h2 := ih (fun w hw => h w (List.mem_cons_of_mem v hw))
    simp [DatabaseManager.update_vehicle, h1, h2]

/-- Replacement hits exactly the first vehicle whose identity matches and
leaves every other row unchanged in its position. -/
theorem update_vehicle_first_match (u w : Vehicle)
    (hw : w.vehicle_id = u.vehicle_id) :
    ∀ pre : List Vehicle, (∀ v ∈ pre, v.vehicle_id ≠ u.vehicle_id) →
    ∀ post : List Vehicle,
      DatabaseManager.update_vehicle u (pre ++ w :: post) = pre ++ u :: post := by
  intro pre
  induction pre with
  | nil => intro _ post; simp [DatabaseManager.update_vehicle, hw]
  | cons v vs ih =>
    intro h post
    have h1 : v.vehicle_id ≠ u.vehicle_id := h v (List.mem_cons_self v vs)
    have h2 := ih (fun x hx => h x (List.mem_cons_of_mem v hx)) post
    simp [DatabaseManager.update_vehicle, h1, h2]

/-- Replacing a key that no rental of the collection carries rewrites the
collection unchanged. -/
theorem update_rental_no_match (u : Rental) (l : List Rental)
    (h : ∀ r ∈ l, r.rental_id ≠ u.rental_id) :
    DatabaseManager.update_rental u l = l := by
  induction l with
  | nil => rfl
  | cons r rs ih =>
    have h1 : r.rental_id ≠ u.rental_id := h r (List.mem_cons_self r rs)
    have h2 := ih (fun x hx => h x (List.mem_cons_of_mem r hx))
    simp [DatabaseManager.update_rental, h1, h2]

/-- Replacement hits exactly the first rental whose identity matches and
leaves every other row unchanged in its position. -/
theorem update_rental_first_match (u w : Rental)
    (hw : w.rental_id = u.rental_id) :
    ∀ pre : List Rental, (∀ r ∈ pre, r.rental_id ≠ u.rental_id) →
    ∀ post : List Rental,
      DatabaseManager.update_rental u (pre ++ w :: post) = pre ++ u :: post := by
  intro pre
  induction pre with
  | nil => intro _ post; simp [DatabaseManager.update_rental, hw]
  | cons r rs ih =>
    intro h post
    have h1 : r.rental_id ≠ u.rental_id := h r (List.mem_cons_self r rs)
    have h2 := ih (fun x hx => h x (List.mem_cons_of_mem r hx)) post
    simp [DatabaseManager.update_rental, h1, h2]

/-- Appending accounts with usernames that are pairwise distinct and absent
from the stored list stores them all, in order, after the stored ones. -/
theorem add_user_foldl (l : List User) :
    ∀ s : List User, (∀ u ∈ l, ∀ x ∈ s, x.username ≠ u.username) →
    l.Pairwise (fun a b => a.username ≠ b.username) →
    l.foldl (fun acc u => (DatabaseManager.add_user acc u).1) s = s ++ l := by
  induction l with
  | nil => intro s _ _; simp
  | cons u us ih =>
    intro s hdisj hpw
    have hnone : ¬ s.any (fun x => x.username = u.username) = true := by
      simp only [List.any_eq_true, decide_eq_true_eq, not_exists]
      intro x hx
      exact hdisj u (List.mem_cons_self u us) x hx.1 hx.2
    have hstep : (DatabaseManager.add_user s u).1 = s ++ [u] := by
      simp [DatabaseManager.add_user, hnone]
    have hdisj2 : ∀ v ∈ us, ∀ x ∈ s ++ [u], x.username ≠ v.username := by
      intro v hv x hx
      rcases List.mem_append.mp hx with hxs | hxu
      · exact hdisj v (List.mem_cons_of_mem u hv) x hxs
      · have hxeq : x = u := List.mem_singleton.mp hxu
        subst hxeq
        exact (List.pairwise_cons.mp hpw).1 v hv
    have := ih (s ++ [u]) hdisj2 (List.pairwise_cons.mp hpw).2
    simp only [List.foldl_cons, hstep, this, List.append_assoc,
      List.singleton_append]

/-- C8: update_by_key (DatabaseManager.update_vehicle and
DatabaseManager.update_rental) replaces exactly the first record whose
identity field matches the updated entity, leaves every other record
unchanged in its original position, and rewrites the collection unchanged
when no record matches. -/
theorem C8_update_by_key_frame :
    (∀ (u : Vehicle) (l : List Vehicle),
      (∀ v ∈ l, v.vehicle_id ≠ u.vehicle_id) →
      DatabaseManager.update_vehicle u l = l) ∧
    (∀ (u w : Vehicle) (pre post : List Vehicle),
      w.vehicle_id = u.vehicle_id →
      (∀ v ∈ pre, v.vehicle_id ≠ u.vehicle_id) →
      DatabaseManager.update_vehicle u (pre ++ w :: post) = pre ++ u :: post) ∧
    (∀ (u : Rental) (l : List Rental),
      (∀ r ∈ l, r.rental_id ≠ u.rental_id) →
      DatabaseManager.update_rental u l = l) ∧
    (∀ (u w : Rental) (pre post : List Rental),
      w.rental_id = u.rental_id →
      (∀ r ∈ pre, r.rental_id ≠ u.rental_id) →
      DatabaseManager.update_rental u (pre ++ w :: post) = pre ++ u :: post) :=
  ⟨fun u l h => update_vehicle_no_match u l h,
   fun u w pre post hw hpre => update_vehicle_first_match u w hw pre hpre post,
   fun u l h => update_rental_no_match u l h,
   fun u w pre post hw hpre => update_rental_first_match u w hw pre hpre post⟩

/-- Witness for C8 at concrete collections: a non-matching update is the
identity, and a matching update replaces only the first matching row. -/
theorem C8_update_by_key_frame_witness :
    DatabaseManager.update_vehicle vAvail [vRented] = [vRented] ∧
    DatabaseManager.update_vehicle ({ vAvail with is_available := false })
      [vRented, vAvail] = [vRented, { vAvail with is_available := false }] ∧
    DatabaseManager.update_rental rOpen [rClosed] = [rClosed] ∧
    DatabaseManager.update_rental ({ rOpen with status := "Returned" })
      [rClosed, rOpen] = [rClosed, { rOpen with status := "Returned" }] := by
  refine ⟨C8_update_by_key_frame.1 vAvail [vRented] ?_,
    C8_update_by_key_frame.2.1 ({ vAvail with is_available := false }) vAvail
      [vRented] [] rfl ?_,
    C8_update_by_key_frame.2.2.1 rOpen [rClosed] ?_,
    C8_update_by_key_frame.2.2.2 ({ rOpen with status := "Returned" }) rOpen
      [rClosed] [] rfl ?_⟩ <;> decide

/-- C9: with the backing file absent (FileNotFoundError caught), every one
of the three loaders returns the empty collection rather than failing. -/
theorem C9_missing_file_empty :
    DatabaseManager.get_users none = some [] ∧
    DatabaseManager.get_vehicles none = some [] ∧
    DatabaseManager.get_rentals none = some [] :=
  ⟨rfl, rfl, rfl⟩

/-- C10: a rental row without the actual_return_date key parses with
actual_return_date N/A, and one without the status key parses with status
Rented (an open rental), instead of failing the load. -/
theorem C10_rental_optional_defaults (data : List (String × String))
    (r : Rental) (h : Rental.from_dict data = some r) :
    (data.lookup "actual_return_date" = none → r.actual_return_date = "N/A") ∧
    (data.lookup "status" = none → r.status = "Rented") := by
  unfold Rental.from_dict at h
  have hfields :
      r.actual_return_date = (data.lookup "actual_return_date").getD "N/A" ∧
      r.status = (data.lookup "status").getD "Rented" := by
    revert h
    cases data.lookup "rental_id" <;> cases data.lookup "vehicle_id" <;>
      cases data.lookup "customer_id" <;> cases data.lookup "customer_name" <;>
      cases data.lookup "customer_address" <;>
      cases data.lookup "customer_tel" <;> cases data.lookup "rent_date" <;>
      cases data.lookup "proposed_return_date" <;> intro h
    all_goals first
      | exact Option.noConfusion h
      | (injection h with h2
         subst h2
         exact ⟨rfl, rfl⟩)
  constructor
  · intro hl
    rw [hfields.1, hl]
    rfl
  · intro hl
    rw [hfields.2, hl]
    rfl

/-- Witness for C10: the sample row carrying neither optional column parses
to an open, not-yet-returned rental. -/
theorem C10_rental_optional_defaults_witness :
    (⟨"R100", "V1", "C1", "Alice", "1 Main St", "0112223334", "2025-01-01",
      "2025-01-04", "N/A", "Rented"⟩ : Rental).actual_return_date = "N/A" ∧
    (⟨"R100", "V1", "C1", "Alice", "1 Main St", "0112223334", "2025-01-01",
      "2025-01-04", "N/A", "Rented"⟩ : Rental).status = "Rented" := by
  have h := C10_rental_optional_defaults rentalRowNoOptional
    ⟨"R100", "V1", "C1", "Alice", "1 Main St", "0112223334", "2025-01-01",
      "2025-01-04", "N/A", "Rented"⟩ (by rfl)
  exact ⟨h.1 (by rfl), h.2 (by rfl)⟩

/-- C1 (defect in the source): the direct structured-map round trip
Vehicle.from_dict after Vehicle.to_dict does not reproduce is_available.
Vehicle.to_dict places the raw boolean in the map (although its in-code
comment says a string is stored) while Vehicle.from_dict compares the
stored value with the literal string True, which a boolean never equals in
Python, so every vehicle comes back with is_available false; in particular
the available sample vehicle does not round-trip to itself.  All other
fields are reproduced exactly. -/
theorem C1_vehicle_round_trip_drops_availability :
    (∀ v : Vehicle, Vehicle.from_dict (Vehicle.to_dict v) =
      some ({ v with is_available := false })) ∧
    Vehicle.from_dict (Vehicle.to_dict vAvail) ≠ some vAvail := by
  constructor
  · intro v
    rfl
  · intro h
    have h2 : Vehicle.from_dict (Vehicle.to_dict vAvail) =
        some ({ vAvail with is_available := false }) := rfl
    rw [h2] at h
    have h3 : ({ vAvail with is_available := false } : Vehicle) = vAvail :=
      Option.some_injective _ h
    have h4 := congrArg Vehicle.is_available h3
    exact Bool.false_ne_true h4

/-- C7: appending an account whose username is already stored returns the
failure flag and leaves the stored collection unchanged, and a sequence of
appends of accounts with pairwise-distinct usernames into an empty store
loads back exactly the appended sequence. -/
theorem C7_account_append_round_trip :
    (∀ (users : List User) (u : User),
      (∃ x ∈ users, x.username = u.username) →
      DatabaseManager.add_user users u = (users, false)) ∧
    (∀ l : List User, l.Pairwise (fun a b => a.username ≠ b.username) →
      l.foldl (fun acc u => (DatabaseManager.add_user acc u).1) [] = l) := by
  constructor
  · intro users u hex
    obtain ⟨x, hx, he⟩ := hex
    have hany : users.any (fun y => y.username = u.username) = true := by
      simp only [List.any_eq_true, decide_eq_true_eq]
      exact ⟨x, hx, he⟩
    simp [DatabaseManager.add_user, hany]
  · intro l hpw
    have h := add_user_foldl l []
      (fun u _ x hx => absurd hx (List.not_mem_nil x)) hpw
    simpa using h

/-- Witness for C7: re-registering the username ann fails and changes
nothing, and two distinct registrations load back as appended. -/
theorem C7_account_append_round_trip_witness :
    DatabaseManager.add_user [⟨"ann", "pw1"⟩] ⟨"ann", "pw2"⟩ =
      ([⟨"ann", "pw1"⟩], false) ∧
    [(⟨"ann", "pw1"⟩ : User), ⟨"ben", "pw2"⟩].foldl
      (fun acc u => (DatabaseManager.add_user acc u).1) [] =
      [⟨"ann", "pw1"⟩, ⟨"ben", "pw2"⟩] := by
  refine ⟨C7_account_append_round_trip.1 [⟨"ann", "pw1"⟩] ⟨"ann", "pw2"⟩
      ⟨⟨"ann", "pw1"⟩, by decide⟩,
    C7_account_append_round_trip.2 [⟨"ann", "pw1"⟩, ⟨"ben", "pw2"⟩] ?_⟩
  · decide

/-- C5: declining the confirmation that guards making a vehicle available
while an open Rented agreement references it leaves the whole state (both
collections) unchanged, with the declined outcome; granting the same
confirmation proceeds to the status update, so the gate is consulted. -/
theorem C5_decline_keeps_state (v : Vehicle) (s : AppState) (r : Rental)
    (hv : v.is_available = false) (hr : r ∈ s.rentals)
    (hrid : r.vehicle_id = v.vehicle_id) (hst : r.status = "Rented") :
    update_vehicle_status v true false s = (s, .returnDeclined) ∧
    (update_vehicle_status v true true s).2 = .statusUpdated := by
  have hfilter : (s.rentals.filter (fun x =>
      x.vehicle_id = v.vehicle_id && x.status = "Rented")).isEmpty = false := by
    have hmem : r ∈ s.rentals.filter (fun x =>
        x.vehicle_id = v.vehicle_id && x.status = "Rented") :=
      List.mem_filter.mpr ⟨hr, by simp [hrid, hst]⟩
    cases hh : s.rentals.filter (fun x =>
        x.vehicle_id = v.vehicle_id && x.status = "Rented") with
    | nil => rw [hh] at hmem; exact absurd hmem (List.not_mem_nil r)
    | cons a l => rfl
  constructor
  · simp [update_vehicle_status, hv, hfilter]
  · simp [update_vehicle_status, hv, hfilter]

/-- Witness for C5 at a concrete state: the rented sample vehicle with its
open agreement stays untouched when the operator declines, and the
granted path reaches the update. -/
theorem C5_decline_keeps_state_witness :
    update_vehicle_status vRented true false ⟨[vRented], [rOpen]⟩ =
      (⟨[vRented], [rOpen]⟩, .returnDeclined) ∧
    (update_vehicle_status vRented true true
      ⟨[vRented], [rOpen]⟩).2 = .statusUpdated := by
  exact C5_decline_keeps_state vRented ⟨[vRented], [rOpen]⟩ rOpen rfl
    (by decide) rfl rfl

/-- Raising an integer to at least 1 by a conditional is the max with 1. -/
theorem clamp_eq_max (d : ℤ) : (if d < 1 then 1 else d) = max 1 d := by
  rcases lt_or_le d 1 with h | h
  · rw [if_pos h, max_eq_left h.le]
  · rw [if_neg (not_lt.mpr h), max_eq_right h]

/-- C6: on a pair of texts that parse as dates, the fee preview shows
exactly max(1, ordinal difference) days at the daily rate; a return date
on or before the rent date therefore shows exactly one day (never zero or
a negative count); a text that fails to parse yields the zero fee display
and no error (the preview is a total function). -/
theorem C6_total_fee_preview :
    (∀ (rate : ℚ) (a b : String) (d1 d2 : Date),
      strptime_Ymd (pyStrip a) = some d1 →
      strptime_Ymd (pyStrip b) = some d2 →
      update_total_fee rate a b =
        some (max 1 ((d2.toOrdinal : ℤ) - (d1.toOrdinal : ℤ)),
          max 1 ((d2.toOrdinal : ℤ) - (d1.toOrdinal : ℤ)) * rate)) ∧
    (∀ (rate : ℚ) (a b : String) (d1 d2 : Date),
      strptime_Ymd (pyStrip a) = some d1 →
      strptime_Ymd (pyStrip b) = some d2 →
      d2.toOrdinal ≤ d1.toOrdinal →
      update_total_fee rate a b = some (1, rate)) ∧
    (∀ (rate : ℚ) (a b : String),
      strptime_Ymd (pyStrip a) = none ∨ strptime_Ymd (pyStrip b) = none →
      displayed_total_fee rate a b = 0) := by
  have key : ∀ (rate : ℚ) (a b : String) (d1 d2 : Date),
      strptime_Ymd (pyStrip a) = some d1 →
      strptime_Ymd (pyStrip b) = some d2 →
      update_total_fee rate a b =
        some (max 1 ((d2.toOrdinal : ℤ) - (d1.toOrdinal : ℤ)),
          max 1 ((d2.toOrdinal : ℤ) - (d1.toOrdinal : ℤ)) * rate) := by
    intro rate a b d1 d2 h1 h2
    unfold update_total_fee
    rw [h1, h2]
    dsimp only
    rw [clamp_eq_max]
  refine ⟨key, ?_, ?_⟩
  · intro rate a b d1 d2 h1 h2 hle
    rw [key rate a b d1 d2 h1 h2]
    have hd : max 1 ((d2.toOrdinal : ℤ) - (d1.toOrdinal : ℤ)) = 1 := by
      rw [max_eq_left]
      omega
    rw [hd]
    simp
  · intro rate a b h
    unfold displayed_total_fee update_total_fee
    rcases h with h | h
    · rw [h]
    · rw [h]
      cases strptime_Ymd (pyStrip a) <;> rfl

/-- Witness for C6: three days at rate 50 cost 150, a reversed pair of
dates is billed as one day, and garbage input shows the zero fee. -/
theorem C6_total_fee_preview_witness :
    update_total_fee 50 "2025-01-01" "2025-01-04" = some (3, 150) ∧
    update_total_fee 50 "2025-01-04" "2025-01-01" = some (1, 50) ∧
    displayed_total_fee 50 "garbage" "2025-01-01" = 0 := by
  have h1 := C6_total_fee_preview.1 50 "2025-01-01" "2025-01-04"
    ⟨2025, 1, 1⟩ ⟨2025, 1, 4⟩ (by decide) (by decide)
  have h2 := C6_total_fee_preview.2.1 50 "2025-01-04" "2025-01-01"
    ⟨2025, 1, 4⟩ ⟨2025, 1, 1⟩ (by decide) (by decide) (by decide)
  have h3 := C6_total_fee_preview.2.2 50 "garbage" "2025-01-01"
    (Or.inl (by decide))
  refine ⟨?_, h2, h3⟩
  rw [h1]
  have hd : max 1 (((⟨2025, 1, 4⟩ : Date).toOrdinal : ℤ) -
      ((⟨2025, 1, 1⟩ : Date).toOrdinal : ℤ)) = 3 := by decide
  rw [hd]
  norm_num

/-- C2: for an available vehicle and valid form input (all six stripped
fields non-empty, both dates parsing as YYYY-MM-DD), the rent flow
confirms and its only effects are appending exactly one new rental
agreement — status Rented, actual_return_date N/A, referencing the
vehicle — to the rentals collection and rewriting the (first matching)
vehicle record with is_available false; every other record of both
collections is untouched. -/
theorem C2_confirm_rental_effect (v : Vehicle)
    (rid cid cname caddr ctel rd prd : String)
    (pre post : List Vehicle) (rs : List Rental) (d1 d2 : Date)
    (hav : v.is_available = true)
    (h1 : pyStrip cid ≠ "") (h2 : pyStrip cname ≠ "")
    (h3 : pyStrip caddr ≠ "") (h4 : pyStrip ctel ≠ "")
    (h5 : pyStrip rd ≠ "") (h6 : pyStrip prd ≠ "")
    (hd1 : strptime_Ymd (pyStrip rd) = some d1)
    (hd2 : strptime_Ymd (pyStrip prd) = some d2)
    (hpre : ∀ w ∈ pre, w.vehicle_id ≠ v.vehicle_id) :
    show_rent_popup v rid cid cname caddr ctel rd prd ⟨pre ++ v :: post, rs⟩ =
      (⟨pre ++ ({ v with is_available := false }) :: post,
        rs ++ [⟨rid, v.vehicle_id, pyStrip cid, pyStrip cname, pyStrip caddr,
          pyStrip ctel, pyStrip rd, pyStrip prd, "N/A", "Rented"⟩]⟩,
        .confirmed) := by
  have hupd := update_vehicle_first_match ({ v with is_available := false })
    v rfl pre hpre post
  unfold show_rent_popup
  rw [hav]
  rw [if_neg (by simp)]
  unfold confirm_rental
  rw [if_neg (by simp [h1, h2, h3, h4, h5, h6])]
  rw [hd1, hd2]
  dsimp only
  rw [hupd]

/-- Witness for C2: renting the available sample vehicle with filled-in
form fields appends the expected agreement and flips the record. -/
theorem C2_confirm_rental_effect_witness :
    show_rent_popup vAvail "R9" "C1" "Alice" "1 Main St" "0112223334"
      "2025-01-01" "2025-01-04" ⟨[vAvail], [rOpen]⟩ =
      (⟨[{ vAvail with is_available := false }],
        [rOpen, ⟨"R9", "V1", "C1", "Alice", "1 Main St", "0112223334",
          "2025-01-01", "2025-01-04", "N/A", "Rented"⟩]⟩, .confirmed) := by
  exact C2_confirm_rental_effect vAvail "R9" "C1" "Alice" "1 Main St"
    "0112223334" "2025-01-01" "2025-01-04" [] [] [rOpen]
    ⟨2025, 1, 1⟩ ⟨2025, 1, 4⟩ rfl (by decide) (by decide) (by decide)
    (by decide) (by decide) (by decide) (by decide) (by decide)
    (fun w hw => absurd hw (List.not_mem_nil w))

/-- C3: the rent flow rejects an unavailable vehicle, any empty stripped
form field and any date text that fails to parse: the outcome is not a
confirmation and the state — both the rentals collection and the vehicles
collection — is returned exactly as it was. -/
theorem C3_rent_rejection_no_write (v : Vehicle)
    (rid cid cname caddr ctel rd prd : String) (s : AppState)
    (h : v.is_available = false ∨ pyStrip cid = "" ∨ pyStrip cname = "" ∨
      pyStrip caddr = "" ∨ pyStrip ctel = "" ∨ pyStrip rd = "" ∨
      pyStrip prd = "" ∨ strptime_Ymd (pyStrip rd) = none ∨
      strptime_Ymd (pyStrip prd) = none) :
    (show_rent_popup v rid cid cname caddr ctel rd prd s).1 = s ∧
    (show_rent_popup v rid cid cname caddr ctel rd prd s).2 ≠ .confirmed := by
  unfold show_rent_popup confirm_rental
  split
  · exact ⟨rfl, by simp⟩
  · dsimp only
    split
    · exact ⟨rfl, by simp⟩
    · split
      · exfalso
        rcases h with h | h | h | h | h | h | h | h | h
        all_goals simp_all
      · exact ⟨rfl, by simp⟩

/-- Witness for C3: renting the rented sample vehicle is refused with the
state unchanged, discharging the disjunction through its first case. -/
theorem C3_rent_rejection_no_write_witness :
    (show_rent_popup vRented "R9" "C1" "Alice" "1 Main St" "0112223334"
      "2025-01-01" "2025-01-04" ⟨[vRented], [rOpen]⟩).1 =
      ⟨[vRented], [rOpen]⟩ ∧
    (show_rent_popup vRented "R9" "C1" "Alice" "1 Main St" "0112223334"
      "2025-01-01" "2025-01-04" ⟨[vRented], [rOpen]⟩).2 ≠ .confirmed :=
  C3_rent_rejection_no_write vRented "R9" "C1" "Alice" "1 Main St"
    "0112223334" "2025-01-01" "2025-01-04" ⟨[vRented], [rOpen]⟩
    (Or.inl rfl)

/-- C4: saving a history edit with valid dates writes the edited rental in
place and keeps it in sync with its vehicle with no confirmation step: an
edit of the status from Rented to Returned stores the rental as Returned
and rewrites the vehicle with is_available true, and an edit from Returned
back to Rented rewrites the vehicle with is_available false. -/
theorem C4_history_edit_syncs_vehicle (r : Rental) (v : Vehicle)
    (cid cname caddr ctel rdi prdi ardi ns : String)
    (preR postR : List Rental) (preV postV : List Vehicle) (d1 d2 : Date)
    (hdr : strptime_Ymd (pyStrip rdi) = some d1)
    (hdp : strptime_Ymd (pyStrip prdi) = some d2)
    (hda : pyUpper (pyStrip ardi) = "N/A" ∨ pyStrip ardi = "" ∨
      (strptime_Ymd (pyStrip ardi)).isSome = true)
    (hpreR : ∀ x ∈ preR, x.rental_id ≠ r.rental_id)
    (hpreV : ∀ w ∈ preV, w.vehicle_id ≠ v.vehicle_id) :
    (r.status = "Rented" → ns = "Returned" →
      save_rental_updates r v cid cname caddr ctel rdi prdi ardi ns
        ⟨preV ++ v :: postV, preR ++ r :: postR⟩ =
      (⟨preV ++ ({ v with is_available := true }) :: postV,
        preR ++ ({ r with
            customer_id := pyStrip cid,
            customer_name := pyStrip cname,
            customer_address := pyStrip caddr,
            customer_tel := pyStrip ctel,
            rent_date := pyStrip rdi,
            proposed_return_date := pyStrip prdi,
            actual_return_date := pyStrip ardi,
            status := ns }) :: postR⟩, .saved)) ∧
    (r.status = "Returned" → ns = "Rented" →
      save_rental_updates r v cid cname caddr ctel rdi prdi ardi ns
        ⟨preV ++ v :: postV, preR ++ r :: postR⟩ =
      (⟨preV ++ ({ v with is_available := false }) :: postV,
        preR ++ ({ r with
            customer_id := pyStrip cid,
            customer_name := pyStrip cname,
            customer_address := pyStrip caddr,
            customer_tel := pyStrip ctel,
            rent_date := pyStrip rdi,
            proposed_return_date := pyStrip prdi,
            actual_return_date := pyStrip ardi,
            status := ns }) :: postR⟩, .saved)) := by
  have hnc3 : ¬((pyUpper (pyStrip ardi) ≠ "N/A" && pyStrip ardi ≠ ""
      && (strptime_Ymd (pyStrip ardi)).isNone) = true) := by
    rcases hda with hda | hda | hda
    · simp [hda]
    · simp [hda]
    · obtain ⟨d3, hd3⟩ := Option.isSome_iff_exists.mp hda
      simp [hd3]
  have hrupd := update_rental_first_match
    ({ r with
        customer_id := pyStrip cid,
        customer_name := pyStrip cname,
        customer_address := pyStrip caddr,
        customer_tel := pyStrip ctel,
        rent_date := pyStrip rdi,
        proposed_return_date := pyStrip prdi,
        actual_return_date := pyStrip ardi,
        status := ns }) r rfl
    preR hpreR postR
  have hvupdT := update_vehicle_first_match
    ({ v with is_available := true }) v rfl preV hpreV postV
  have hvupdF := update_vehicle_first_match
    ({ v with is_available := false }) v rfl preV hpreV postV
  constructor
  · intro hst hns
    unfold save_rental_updates
    rw [if_neg (by simp [hdr]), if_neg (by simp [hdp]), if_neg hnc3]
    dsimp only
    rw [if_pos (by simp [hst, hns])]
    rw [hrupd, hvupdT]
  · intro hst hns
    unfold save_rental_updates
    rw [if_neg (by simp [hdr]), if_neg (by simp [hdp]), if_neg hnc3]
    dsimp only
    rw [if_neg (by simp [hst, hns]), if_pos (by simp [hst, hns])]
    rw [hrupd, hvupdF]

/-- Witness for C4: marking the open sample agreement Returned stores it
as Returned and frees its vehicle, at a concrete state. -/
theorem C4_history_edit_syncs_vehicle_witness :
    save_rental_updates rOpen vRented "C9" "Bob" "2 High St" "0771234567"
      "2025-01-01" "2025-01-04" "2025-01-03" "Returned"
      ⟨[vRented], [rOpen]⟩ =
    (⟨[{ vRented with is_available := true }],
      [{ rOpen with
          actual_return_date := "2025-01-03",
          status := "Returned" }]⟩, .saved) := by
  have h := (C4_history_edit_syncs_vehicle rOpen vRented "C9" "Bob"
    "2 High St" "0771234567" "2025-01-01" "2025-01-04" "2025-01-03"
    "Returned" [] [] [] [] ⟨2025, 1, 1⟩ ⟨2025, 1, 4⟩ (by decide) (by decide)
    (Or.inr (Or.inr (by decide)))
    (fun x hx => absurd hx (List.not_mem_nil x))
    (fun w hw => absurd hw (List.not_mem_nil w))).1 rfl rfl
  exact h.trans (by decide)

end VRS
